import Mathlib

/-!
Verification of the Node/Connection Graph Store of the `knowledge` repository
(browser-based cinematic-storytelling study guide).

The development shallowly embeds the JavaScript sources:
* `src/data/schema.js` — node/connection factories and the strict validator;
* `src/data/store.js` — the observer-pattern state container (class `Store`);
* `src/data/taxonomy.js` and `src/data/connections.js` — the seed data used as
  the persistence fallback;
* the reactive-signals state module — its `addNode` action variant.

JavaScript values are modelled as follows: strings are `String`; numbers are
`ℚ` (JS doubles carry exact values for every literal appearing here; the trig
used only for decorative 3-D positions is modelled abstractly, see `jsCos`);
string-or-null / string-or-undefined fields are `Option String`; partial input
objects have every field `Option`-typed with `none` meaning the field is
absent.  The `||` defaulting idiom of the source is modelled by the `jsOr*`
helpers, which treat `none` and the falsy values `""` / `0` alike, exactly as
JavaScript does.  `crypto.randomUUID()` is nondeterministic, so the factories
take the would-be fresh identifier as an explicit `freshId` argument; it is
consulted only when the input carries no `id`.
-/

namespace Knowledge

/-- JS `a || b` for a possibly-absent string `a`: `undefined`, `null` and the
empty string are falsy, so they yield the default `b`. -/
def jsOrS (a : Option String) (b : String) : String :=
  match a with
  | none => b
  | some s => if s = "" then b else s

/-- JS `a || null` for a possibly-absent string `a`: a falsy value collapses to
`null` (modelled `none`). -/
def jsOrNull (a : Option String) : Option String :=
  match a with
  | none => none
  | some s => if s = "" then none else some s

/-- JS `a || b` for a possibly-absent boolean `a` (`undefined` and `false` are
falsy). -/
def jsOrB (a : Option Bool) (b : Bool) : Bool :=
  match a with
  | none => b
  | some v => if v then v else b

/-- JS `a || b` for a possibly-absent number `a`: `undefined` and `0` are
falsy and yield the default `b`.  (`NaN` is also falsy in JS but is not
representable in this exact-rational model; no caller produces it.) -/
def jsOrQ (a : Option ℚ) (b : ℚ) : ℚ :=
  match a with
  | none => b
  | some v => if v = 0 then b else v

/-- JS `String.prototype.trim`, modelled on the underlying character list:
strips leading and trailing whitespace. -/
def jsTrim (s : String) : String :=
  ⟨((s.data.dropWhile Char.isWhitespace).reverse.dropWhile Char.isWhitespace).reverse⟩

/-- JS truthiness test `!s` for a possibly-absent string. -/
def jsFalsy (a : Option String) : Bool :=
  match a with
  | none => true
  | some s => decide (s = "")

/-- A node of the graph (`@typedef Node` in `schema.js`).  `domain` and
`subgroup` are string-or-null. -/
structure Node where
  id : String
  title : String
  definition : String
  problemSolved : String
  breaksIfMisused : String
  «example» : String
  personalNote : String
  layer : String
  domain : Option String
  subgroup : Option String
  unclear : Bool
  x : ℚ
  y : ℚ
  z : ℚ
deriving DecidableEq

/-- A directed annotated edge (`@typedef Connection` in `schema.js`).  The
factory copies `from`/`to` through unchanged, so they are string-or-undefined. -/
structure Connection where
  id : String
  «from» : Option String
  «to» : Option String
  explanation : String
  strength : ℚ
deriving DecidableEq

/-- A partial node object as passed to `createNode` / `validateNode` /
`updateNode`: every field may be absent. -/
structure NodeData where
  id : Option String
  title : Option String
  definition : Option String
  problemSolved : Option String
  breaksIfMisused : Option String
  «example» : Option String
  personalNote : Option String
  layer : Option String
  domain : Option String
  subgroup : Option String
  unclear : Option Bool
  x : Option ℚ
  y : Option ℚ
  z : Option ℚ
deriving DecidableEq

/-- The all-absent partial node, base for building concrete inputs. -/
def emptyNodeData : NodeData :=
  ⟨none, none, none, none, none, none, none, none, none, none, none, none, none, none⟩

/-- A partial connection object as passed to `createConnection`. -/
structure ConnectionData where
  id : Option String
  «from» : Option String
  «to» : Option String
  explanation : Option String
  strength : Option ℚ
deriving DecidableEq

/-- `createNode` from `schema.js`: fills every omitted/falsy field with its
default.  `freshId` stands for the `crypto.randomUUID()` call, consulted only
when `data.id` is falsy. -/
def createNode (freshId : String) (data : NodeData) : Node :=
  { id := jsOrS data.id freshId
    title := jsOrS data.title "Untitled"
    definition := jsOrS data.definition ""
    problemSolved := jsOrS data.problemSolved ""
    breaksIfMisused := jsOrS data.breaksIfMisused ""
    «example» := jsOrS data.«example» ""
    personalNote := jsOrS data.personalNote ""
    layer := jsOrS data.layer "storytelling"
    domain := jsOrNull data.domain
    subgroup := jsOrNull data.subgroup
    unclear := jsOrB data.unclear false
    x := jsOrQ data.x 0
    y := jsOrQ data.y 0
    z := jsOrQ data.z 0 }

/-- `createConnection` from `schema.js`: copies `from`/`to` through and clamps
`strength` by `Math.min(5, Math.max(1, data.strength || 3))`. -/
def createConnection (freshId : String) (data : ConnectionData) : Connection :=
  { id := jsOrS data.id freshId
    «from» := data.«from»
    «to» := data.«to»
    explanation := jsOrS data.explanation ""
    strength := min 5 (max 1 (jsOrQ data.strength 3)) }

/-- Result shape of `validateNode`: `{valid, error}`. -/
structure ValidationResult where
  valid : Bool
  error : Option String
deriving DecidableEq

/-- Core of `validateNode` on the three fields it reads (the JS function is
duck-typed: the store passes both raw partial data and merged full nodes).
Mirrors the source checks in order:
`!title || title.trim() === ''`, then `!layer`, then
`layer === 'domain' && !domain`. -/
def validateRaw (title layer domain : Option String) : ValidationResult :=
  if (match title with | none => true | some s => decide (jsTrim s = "")) then
    ⟨false, some "Title is required"⟩
  else if jsFalsy layer then
    ⟨false, some "Layer classification is required"⟩
  else if layer = some "domain" && jsFalsy domain then
    ⟨false, some "Domain nodes must specify which domain"⟩
  else
    ⟨true, none⟩

/-- `validateNode` from `schema.js` applied to a full node. -/
def validateNode (node : Node) : ValidationResult :=
  validateRaw (some node.title) (some node.layer) node.domain

/-- `validateNode` applied to a raw partial input, as `Store.addNode` does. -/
def validateData (data : NodeData) : ValidationResult :=
  validateRaw data.title data.layer data.domain

/-- JS `Array.prototype.findIndex`: index of the first element satisfying the
predicate (`-1` becomes `none`). -/
def jsFindIndex (p : α → Bool) : List α → Option Nat
  | [] => none
  | a :: l => if p a then some 0 else (jsFindIndex p l).map (· + 1)

/-! The seed data of `taxonomy.js` and `connections.js`.  Every node and
connection there carries an explicit `id`, so the `freshId` argument of the
factories is never consulted; it is passed as `""`. -/

/-- `Math.PI`: the IEEE-754 double nearest π, an exact rational. -/
def jsPI : ℚ := 884279719003555 / 281474976710656

/-- Modelled: `Math.cos` on doubles.  Its values feed only the decorative 3-D
positions of the seed subgroup nodes, which no verified property reads; the
double-precision transcendental has no exact counterpart here and is modelled
as the constant 0. -/
def jsCos (_t : ℚ) : ℚ := 0

/-- Modelled: `Math.sin` on doubles; see `jsCos`. -/
def jsSin (_t : ℚ) : ℚ := 0

/-- Shorthand for the seed-node literals of `taxonomy.js`. -/
def seedNode (id title definition problemSolved breaksIfMisused ex layer : String)
    (x y z : ℚ) : Node :=
  createNode "" { emptyNodeData with
    id := some id, title := some title, definition := some definition,
    problemSolved := some problemSolved, breaksIfMisused := some breaksIfMisused,
    «example» := some ex, layer := some layer,
    x := some x, y := some y, z := some z }

/-- `STORYTELLING_NODES` from `taxonomy.js`. -/
def STORYTELLING_NODES : List Node := [
  seedNode "storytelling-core" "Storytelling"
    "Meaning architecture. The invisible logic that makes content resonate."
    "Gives purpose to every creative decision"
    "Work becomes hollow despite technical excellence"
    "Pixar opens with emotional stakes before spectacle"
    "storytelling" 0 0 0,
  seedNode "story-structure-models" "Story Structure Models"
    "Frameworks that organize narrative beats into emotional arcs."
    "Prevents aimless meandering in narrative"
    "Story feels formulaic or mechanically predictable"
    "Breaking Bad follows classical tragedy structure"
    "storytelling" 2 0.5 1,
  seedNode "storytelling-film" "Storytelling for Film"
    "Visual narrative where image carries meaning over dialogue."
    "Achieves show-don\x27t-tell clarity"
    "Over-reliance on exposition breaks immersion"
    "Wall-E\x27s first 40 minutes - pure visual storytelling"
    "storytelling" (-1.5) 1 2,
  seedNode "storytelling-ads" "Storytelling for Ads"
    "Compressed emotional journey with brand integration."
    "Creates memorable brand associations"
    "Feels manipulative or disconnected from product"
    "Apple \"1984\" - story first, product reveal last"
    "storytelling" 1.5 1.2 (-1.5),
  seedNode "storytelling-no-dialogue" "Storytelling Without Dialogue"
    "Narrative through action, expression, and environment alone."
    "Universal communication across languages"
    "Confusion when visual grammar is unclear"
    "A Quiet Place opening sequence"
    "storytelling" (-2) (-0.5) (-1),
  seedNode "storytelling-editing" "Storytelling Through Editing"
    "Meaning created by juxtaposition and sequence."
    "Controls audience emotion without dialogue"
    "Cuts feel arbitrary, rhythm destroyed"
    "Kuleshov effect - same face, different meaning"
    "storytelling" 0.5 (-1) 2.5,
  seedNode "story-vs-style" "Story vs Style"
    "Story is why, style is how. Never let style override story."
    "Maintains focus on emotional core"
    "Beautiful but meaningless content"
    "Zack Snyder vs Denis Villeneuve approach"
    "storytelling" (-0.5) 0.8 (-2)]

/-- `STRUCTURE_NODES` from `taxonomy.js`. -/
def STRUCTURE_NODES : List Node := [
  seedNode "heros-journey" "Hero\x27s Journey"
    "17-stage monomyth: ordinary world → call → transformation → return."
    "Provides mythic resonance to any story"
    "Feels like checklist storytelling"
    "Star Wars, The Matrix, Lion King"
    "structure" 6 0 0,
  seedNode "story-circle" "Story Circle / Harmonic"
    "8-beat cycle: you → need → go → search → find → take → return → change."
    "Simpler alternative to Hero\x27s Journey"
    "Loss of nuance in complex narratives"
    "Rick and Morty episode structure"
    "structure" 0 0 6,
  seedNode "three-act" "3-Act Structure"
    "Setup → Confrontation → Resolution. Foundation of Western drama."
    "Clear beginning, middle, end satisfaction"
    "Predictable midpoint and climax timing"
    "Most Hollywood films follow this"
    "structure" (-6) 0 0,
  seedNode "five-act" "5-Act Structure"
    "Exposition → Rising → Climax → Falling → Denouement. Shakespearean model."
    "More nuanced arc for longer narratives"
    "Overcomplication of simple stories"
    "Breaking Bad season arcs"
    "structure" 0 0 (-6)]

/-- Shorthand for the domain-node literals of `taxonomy.js` (the only seed
nodes that also set `domain`). -/
def seedDomainNode (id title definition problemSolved breaksIfMisused ex domain : String)
    (x y z : ℚ) : Node :=
  createNode "" { emptyNodeData with
    id := some id, title := some title, definition := some definition,
    problemSolved := some problemSolved, breaksIfMisused := some breaksIfMisused,
    «example» := some ex, layer := some "domain", domain := some domain,
    x := some x, y := some y, z := some z }

/-- `DOMAIN_NODES` from `taxonomy.js`. -/
def DOMAIN_NODES : List Node := [
  seedDomainNode "domain-design" "Design"
    "Still frame thinking. What it looks like frozen in time."
    "\"If this never moved, would it still work?\""
    "Confusion between static and motion concerns"
    "A perfectly composed movie poster"
    "design" 12 0 0,
  seedDomainNode "domain-cinematography" "Cinematography"
    "Writing with light and space. Physical reality capture."
    "\"Does this feel physically real?\""
    "Lighting/camera choices that fight the story"
    "Roger Deakins\x27 work on 1917"
    "cinematography" 3.7 0 11.4,
  seedDomainNode "domain-sound" "Sound"
    "Invisible reality glue. Emotional realism through audio."
    "\"Would this feel real with eyes closed?\""
    "Bad sound kills great visuals instantly"
    "Dunkirk\x27s ticking clock motif"
    "sound" (-9.7) 0 7.1,
  seedDomainNode "domain-editing" "Editing"
    "Where meaning is born. Control of time and sequence."
    "\"What does this sequence say?\""
    "Cuts that confuse rather than clarify"
    "Edgar Wright\x27s rhythmic cutting"
    "editing" (-9.7) 0 (-7.1),
  seedDomainNode "domain-motion" "Motion"
    "Design obeying physics over time. Life and energy."
    "\"Does this feel alive?\""
    "Motion that fights physics or feels mechanical"
    "Apple product reveal animations"
    "motion" 3.7 0 (-11.4)]

/-- One `{id, title, definition}` entry of the `SUBGROUPS` table. -/
structure SubgroupEntry where
  id : String
  title : String
  definition : String
deriving DecidableEq

/-- `SUBGROUPS` from `taxonomy.js`, in object-insertion order (the order
`Object.entries` iterates). -/
def SUBGROUPS : List (String × List SubgroupEntry) := [
  ("design", [
    ⟨"design-composition", "Composition & Hierarchy", "Visual hierarchy, scale, contrast, alignment, negative space"⟩,
    ⟨"design-typography", "Typography", "Font personality, kerning, leading, readability vs expression"⟩,
    ⟨"design-color", "Color & Tone", "Color theory, psychology, palettes, emotional temperature"⟩,
    ⟨"design-vector", "Vector & Asset Design", "Illustrator/SVG, shape logic, scalable assets, icon systems"⟩,
    ⟨"design-layout", "Layout Systems", "Grid systems, modular layouts, UI rhythm, balance vs tension"⟩]),
  ("cinematography", [
    ⟨"cine-light-physics", "Light Physics", "Key/Fill/Back ratios, hard vs soft, falloff, color temperature"⟩,
    ⟨"cine-motivated", "Motivated Lighting", "Practical lights, source logic, shadow motivation"⟩,
    ⟨"cine-optics", "Camera Optics", "Focal length, compression, lens personality, sensor size"⟩,
    ⟨"cine-exposure", "Exposure Control", "Aperture, shutter speed, ISO, noise vs texture"⟩,
    ⟨"cine-blocking", "Blocking & Movement", "Actor movement, camera placement, eye lines"⟩]),
  ("sound", [
    ⟨"sound-production", "Production Sound", "Mic placement, signal-to-noise, clean capture"⟩,
    ⟨"sound-room-tone", "Room Tone", "Ambient silence, continuity glue, edit patching"⟩,
    ⟨"sound-foley", "Foley & SFX", "Layering, texture building, weight creation"⟩,
    ⟨"sound-design-logic", "Sound Design Logic", "Diegetic vs non-diegetic, emotional cues, silence"⟩,
    ⟨"sound-mixing", "Mixing", "EQ, compression, loudness balance"⟩]),
  ("editing", [
    ⟨"edit-narrative", "Narrative Editing", "Kuleshov effect, cause & effect, emotional continuity"⟩,
    ⟨"edit-pacing", "Pacing & Rhythm", "Cut timing, breathing room, tension control"⟩,
    ⟨"edit-montage", "Montage", "Time compression, emotional escalation, visual metaphors"⟩,
    ⟨"edit-technical", "Technical Discipline", "File organization, version control, iteration safety"⟩]),
  ("motion", [
    ⟨"motion-physics", "Motion Physics", "12 principles, weight & inertia, cause → reaction"⟩,
    ⟨"motion-easing", "Easing & Interpolation", "Speed graph, bezier curves, organic vs robotic"⟩,
    ⟨"motion-blur", "Motion Blur & Shutter", "180° rule, artificial blur sync, cinematic consistency"⟩,
    ⟨"motion-secondary", "Secondary Animation", "Follow-through, environmental reaction, life leakage"⟩,
    ⟨"motion-parallax", "Parallax & Depth", "2.5D space, scale illusion, foreground/background"⟩])]

/-- The subgroup nodes `getAllInitialNodes` builds for one domain: positions
are placed on a circle of radius 4 around the domain node (see `jsCos`). -/
def subgroupNodesFor (domain : String) (groups : List SubgroupEntry) : List Node :=
  match DOMAIN_NODES.find? (fun d => decide (d.domain = some domain)) with
  | none => []
  | some domainNode =>
    groups.enum.map fun p =>
      let index := p.1
      let group := p.2
      let angle : ℚ := ((index : ℚ) / (groups.length : ℚ)) * jsPI * 2
      let radius : ℚ := 4
      createNode "" { emptyNodeData with
        id := some group.id, title := some group.title,
        definition := some group.definition,
        layer := some "domain", domain := some domain,
        subgroup := some ("domain-" ++ domain),
        x := some (domainNode.x + jsCos angle * radius),
        y := some (2 + (index : ℚ) * 0.3),
        z := some (domainNode.z + jsSin angle * radius) }

/-- `getAllInitialNodes()` from `taxonomy.js`. -/
def getAllInitialNodes : List Node :=
  STORYTELLING_NODES ++ STRUCTURE_NODES ++ DOMAIN_NODES
    ++ (SUBGROUPS.map fun p => subgroupNodesFor p.1 p.2).flatten

/-- Shorthand for the seed-connection literals of `connections.js`. -/
def seedConn (id fromId toId explanation : String) (strength : ℚ) : Connection :=
  createConnection "" ⟨some id, some fromId, some toId, some explanation, some strength⟩

/-- `DEFAULT_CONNECTIONS` from `connections.js`. -/
def DEFAULT_CONNECTIONS : List Connection := [
  seedConn "conn-hero-story" "heros-journey" "storytelling-core"
    "Hero\x27s Journey is a framework for organizing meaning" 5,
  seedConn "conn-circle-story" "story-circle" "storytelling-core"
    "Story Circle simplifies meaning into 8 emotional beats" 5,
  seedConn "conn-3act-story" "three-act" "storytelling-core"
    "3-Act provides the fundamental meaning container" 5,
  seedConn "conn-5act-story" "five-act" "storytelling-core"
    "5-Act adds nuance to meaning delivery" 4,
  seedConn "conn-edit-storytelling" "domain-editing" "storytelling-editing"
    "Editing is where storytelling decisions are executed" 5,
  seedConn "conn-cine-film" "domain-cinematography" "storytelling-film"
    "Cinematography serves visual storytelling" 4,
  seedConn "conn-sound-emotion" "domain-sound" "storytelling-core"
    "Sound creates emotional truth in storytelling" 4,
  seedConn "conn-design-style" "domain-design" "story-vs-style"
    "Design defines the visual language that style operates within" 3,
  seedConn "conn-motion-emotion" "domain-motion" "storytelling-core"
    "Motion brings energy and life to storytelling" 3,
  seedConn "conn-edit-sound" "domain-editing" "domain-sound"
    "Editing rhythm syncs with sound design" 4,
  seedConn "conn-cine-design" "domain-cinematography" "domain-design"
    "Cinematography inherits composition from design thinking" 3,
  seedConn "conn-motion-cine" "domain-motion" "domain-cinematography"
    "Motion graphics follow cinematic physics when realistic" 3]

/-- The durable payload `{nodes, connections}` the store writes to local
storage under its fixed key. -/
structure Payload where
  nodes : List Node
  connections : List Connection
deriving DecidableEq

/-- The `filters` record of the store state. -/
structure Filters where
  layer : String
  domain : String
  intent : String
deriving DecidableEq

/-- The observable state of the `Store` class in `store.js`.  `storage` models
the local-storage entry under `STORAGE_KEY`; `notifyCount` models the number of
times `notify()` has run (each registered subscriber is called exactly once per
`notify()`, so a single subscriber's call count equals this counter).  The
`history` field of the source is initialized empty and never used; it is
omitted. -/
structure StoreState where
  nodes : List Node
  connections : List Connection
  mode : String
  selectedNodeId : Option String
  filters : Filters
  expandedDomains : List String
  storage : Option Payload
  notifyCount : Nat
deriving DecidableEq

namespace Store

/-- `Store.save()`: serializes `{nodes, connections}` to the storage slot
(the success path of its `try`; a quota failure would leave `storage`
unchanged and is not modelled). -/
def save (st : StoreState) : StoreState :=
  { st with storage := some ⟨st.nodes, st.connections⟩ }

/-- `Store.notify()`: invokes every subscriber once. -/
def notify (st : StoreState) : StoreState :=
  { st with notifyCount := st.notifyCount + 1 }

/-- The `{nodes, connections}` that `Store.load()` installs given the current
storage content: absent (or unparsable) storage and an empty stored node list
both fall back to the seed taxonomy and default connections. -/
def loadPayload (saved : Option Payload) : Payload :=
  match saved with
  | none => ⟨getAllInitialNodes, DEFAULT_CONNECTIONS⟩
  | some data => if data.nodes = [] then ⟨getAllInitialNodes, DEFAULT_CONNECTIONS⟩ else data

/-- `Store.load()`: installs `loadPayload` of the current storage content into
the in-memory collections. -/
def load (st : StoreState) : StoreState :=
  { st with
    nodes := (loadPayload st.storage).nodes
    connections := (loadPayload st.storage).connections }

/-- `Store.getFilteredNodes()`: keeps a node unless a non-empty layer filter
mismatches or a non-empty domain filter mismatches.  (The `intent` member of
`filters` is never consulted by the source.) -/
def getFilteredNodes (st : StoreState) : List Node :=
  st.nodes.filter fun node =>
    if st.filters.layer ≠ "" ∧ node.layer ≠ st.filters.layer then false
    else if st.filters.domain ≠ "" ∧ node.domain ≠ some st.filters.domain then false
    else true

/-- `Store.getConnectionsForNode(id)`. -/
def getConnectionsForNode (st : StoreState) (nodeId : String) : List Connection :=
  st.connections.filter fun c =>
    decide (c.«from» = some nodeId) || decide (c.«to» = some nodeId)

/-- Result shape `{success, node|connection}` / `{success, error}` of the CRUD
operations. -/
inductive OpResult (α : Type) where
  | ok (value : α)
  | err (error : Option String)
deriving DecidableEq

/-- `Store.addNode(data)`: in `build` mode validates the raw data first and
rejects without mutating; otherwise (after forcing `unclear = false` in
`build` mode) creates the node, appends it, persists and notifies. -/
def addNode (freshId : String) (st : StoreState) (data : NodeData) :
    StoreState × OpResult Node :=
  if st.mode = "build" ∧ (validateData data).valid = false then
    (st, .err (validateData data).error)
  else
    let d := if st.mode = "build" then { data with unclear := some false } else data
    let node := createNode freshId d
    (notify (save { st with nodes := st.nodes ++ [node] }), .ok node)

/-- JS shallow merge `{...node, ...updates}` restricted to the declared node
fields: a present update field overwrites, an absent one keeps the node's
value.  (An explicit `null` in an update is not representable; the UI callers
only pass concrete values.) -/
def applyUpdates (n : Node) (u : NodeData) : Node :=
  { id := u.id.getD n.id
    title := u.title.getD n.title
    definition := u.definition.getD n.definition
    problemSolved := u.problemSolved.getD n.problemSolved
    breaksIfMisused := u.breaksIfMisused.getD n.breaksIfMisused
    «example» := u.«example».getD n.«example»
    personalNote := u.personalNote.getD n.personalNote
    layer := u.layer.getD n.layer
    domain := match u.domain with | none => n.domain | some s => some s
    subgroup := match u.subgroup with | none => n.subgroup | some s => some s
    unclear := u.unclear.getD n.unclear
    x := u.x.getD n.x
    y := u.y.getD n.y
    z := u.z.getD n.z }

/-- `Store.updateNode(id, updates)`: `Node not found` when the identifier is
absent; otherwise shallow-merges, validates the merged node in `build` mode
(rejecting without any mutation), and on success commits the merged node,
persists and notifies. -/
def updateNode (st : StoreState) (id : String) (updates : NodeData) :
    StoreState × OpResult Node :=
  match jsFindIndex (fun n => decide (n.id = id)) st.nodes with
  | none => (st, .err (some "Node not found"))
  | some index =>
    match st.nodes.get? index with
    | none => (st, .err (some "Node not found"))
    | some node =>
      let updated := applyUpdates node updates
      if st.mode = "build" ∧ (validateNode updated).valid = false then
        (st, .err (validateNode updated).error)
      else
        (notify (save { st with nodes := st.nodes.set index updated }), .ok updated)

/-- `Store.updateNodeNotes(id, notes)`: silently returns when the identifier is
absent; otherwise overwrites only `personalNote` of the found node and
persists, deliberately without notifying. -/
def updateNodeNotes (st : StoreState) (id : String) (notes : String) : StoreState :=
  match jsFindIndex (fun n => decide (n.id = id)) st.nodes with
  | none => st
  | some index =>
    match st.nodes.get? index with
    | none => st
    | some node =>
      save { st with nodes := st.nodes.set index { node with personalNote := notes } }

/-- `Store.deleteNode(id)`: drops the node and every connection referencing it
as either endpoint, persists and notifies. -/
def deleteNode (st : StoreState) (id : String) : StoreState :=
  notify (save { st with
    nodes := st.nodes.filter fun n => decide (n.id ≠ id)
    connections := st.connections.filter fun c =>
      decide (c.«from» ≠ some id) && decide (c.«to» ≠ some id) })

/-- `Store.addConnection(data)`: rejects a falsy endpoint, and in `build` mode
a falsy explanation; otherwise creates, appends, persists and notifies. -/
def addConnection (freshId : String) (st : StoreState) (data : ConnectionData) :
    StoreState × OpResult Connection :=
  if jsFalsy data.«from» || jsFalsy data.«to» then
    (st, .err (some "From and To nodes required"))
  else if jsFalsy data.explanation && decide (st.mode = "build") then
    (st, .err (some "Explanation required in Build mode"))
  else
    let connection := createConnection freshId data
    (notify (save { st with connections := st.connections ++ [connection] }), .ok connection)

/-- `Store.deleteConnection(id)`. -/
def deleteConnection (st : StoreState) (id : String) : StoreState :=
  notify (save { st with connections := st.connections.filter fun c => decide (c.id ≠ id) })

end Store

/-- `addNode` of the reactive-signals state module: no mode check, no
validation — it always creates the node from the raw data, appends it and
returns the bare node (`nodes.value = [...nodes.value, node]`). -/
def signalsAddNode (freshId : String) (nodes : List Node) (data : NodeData) :
    List Node × Node :=
  let node := createNode freshId data
  (nodes ++ [node], node)

/-! Spec-side reference definitions, used to compare against the source. -/

/-- The strength formula exactly as the spec words it: `min(5, max(1, s))`
with `3` substituted only when the strength is absent.  (The source instead
substitutes `3` for every falsy strength, `0` included; see `jsOrQ`.) -/
def specStrengthClaim (strength : Option ℚ) : ℚ :=
  min 5 (max 1 (strength.getD 3))

/-- Modelled from the spec: the data model (§3) gives a node no intent
attribute, so under the spec's filter contract — "returns nodes matching all
currently-set filter criteria" — no node matches a non-empty intent
criterion. -/
def nodeMatchesIntent (_n : Node) (_intent : String) : Bool := false

/-- The filtering contract as the spec words it: the layer, domain and intent
criteria AND-combined, an empty criterion matching every node. -/
def getFilteredNodesSpec (st : StoreState) : List Node :=
  st.nodes.filter fun n =>
    (decide (st.filters.layer = "") || decide (n.layer = st.filters.layer)) &&
    (decide (st.filters.domain = "") || decide (n.domain = some st.filters.domain)) &&
    (decide (st.filters.intent = "") || nodeMatchesIntent n st.filters.intent)

/-! Concrete fixtures used by witnesses and counterexamples. -/

/-- Fixture node `A` (storytelling layer, no domain). -/
def nodeA : Node := ⟨"A", "Node A", "", "", "", "", "", "storytelling", none, none, false, 0, 0, 0⟩

/-- Fixture node `B`. -/
def nodeB : Node := ⟨"B", "Node B", "", "", "", "", "", "structure", none, none, false, 0, 0, 0⟩

/-- Fixture node `C`. -/
def nodeC : Node := ⟨"C", "Node C", "", "", "", "", "", "storytelling", none, none, false, 0, 0, 0⟩

/-- Fixture connection `A → B`. -/
def connAB : Connection := ⟨"c-ab", some "A", some "B", "A to B", 3⟩

/-- Fixture connection `B → C`. -/
def connBC : Connection := ⟨"c-bc", some "B", some "C", "B to C", 3⟩

/-- Fixture connection `A → C`. -/
def connAC : Connection := ⟨"c-ac", some "A", some "C", "A to C", 3⟩

/-- All three filter criteria empty. -/
def emptyFilters : Filters := ⟨"", "", ""⟩

/-- Explore-mode store holding nodes `A`, `B`, `C` and the three fixture
connections. -/
def stABC : StoreState :=
  ⟨[nodeA, nodeB, nodeC], [connAB, connBC, connAC], "explore", none, emptyFilters, [], none, 0⟩

/-- Empty explore-mode store. -/
def stExplore : StoreState := ⟨[], [], "explore", none, emptyFilters, [], none, 0⟩

/-- Build-mode store holding node `A`. -/
def stBuild : StoreState := ⟨[nodeA], [], "build", none, emptyFilters, [], none, 0⟩

/-- Input with an empty title (the spec's §8 build-mode rejection example). -/
def dEmptyTitle : NodeData := { emptyNodeData with title := some "", layer := some "storytelling" }

/-- Input with layer `domain` but an empty domain. -/
def dDomainMissing : NodeData :=
  { emptyNodeData with title := some "X", layer := some "domain", domain := some "" }

/-- An update payload renaming a node. -/
def uTitle : NodeData := { emptyNodeData with title := some "Renamed" }

/-- A node whose layer is not `domain` yet whose domain is non-null: it still
passes strict validation. -/
def nodeConverseC1 : Node :=
  ⟨"n1", "X", "", "", "", "", "", "storytelling", some "sound", none, false, 0, 0, 0⟩

/-- A well-formed domain-layer node. -/
def sampleDomainNode : Node :=
  ⟨"d1", "Design", "", "", "", "", "", "domain", some "design", none, false, 0, 0, 0⟩

/-- Store whose only set filter criterion is a non-empty intent. -/
def stIntent : StoreState :=
  ⟨[nodeA], [], "explore", none, ⟨"", "", "cinematography"⟩, [], none, 0⟩

/-- Store with an empty node collection but a non-empty connection collection. -/
def stEmptyNodes : StoreState := ⟨[], [connAB], "explore", none, emptyFilters, [], none, 0⟩

/-! Helper lemmas. -/

/-- The created title is never empty: a falsy input title becomes `Untitled`. -/
theorem createNode_title_ne (freshId : String) (d : NodeData) :
    (createNode freshId d).title ≠ "" := by
  cases hd : d.title with
  | none => simp [createNode, jsOrS, hd]
  | some s =>
    simp only [createNode, jsOrS, hd]
    split
    · simp
    · assumption

/-- `findIndex` misses when no element satisfies the predicate. -/
theorem jsFindIndex_eq_none {α : Type} {p : α → Bool} {l : List α}
    (h : ∀ x ∈ l, p x = false) : jsFindIndex p l = none := by
  induction l with
  | nil => rfl
  | cons a l ih =>
    simp only [jsFindIndex, h a (List.mem_cons_self a l)]
    simp [ih fun x hx => h x (List.mem_cons_of_mem a hx)]

/-- `get?` after `set` at the same (in-range) index. -/
theorem list_get?_set_self {α : Type} {l : List α} {i : Nat} (a : α)
    (h : i < l.length) : (l.set i a).get? i = some a := by
  induction l generalizing i with
  | nil => simp at h
  | cons b l ih =>
    cases i with
    | zero => rfl
    | succ i => exact ih (Nat.lt_of_succ_lt_succ h)

/-- `get?` after `set` at a different index. -/
theorem list_get?_set_ne {α : Type} {l : List α} {i j : Nat} (a : α)
    (h : j ≠ i) : (l.set i a).get? j = l.get? j := by
  induction l generalizing i j with
  | nil => rfl
  | cons b l ih =>
    cases i with
    | zero =>
      cases j with
      | zero => exact absurd rfl h
      | succ j => rfl
    | succ i =>
      cases j with
      | zero => rfl
      | succ j => exact ih fun hji => h (by rw [hji])

/-- A successful `get?` index is in range. -/
theorem list_get?_some_lt {α : Type} {l : List α} {i : Nat} {a : α}
    (h : l.get? i = some a) : i < l.length := by
  induction l generalizing i with
  | nil => simp [List.get?] at h
  | cons b l ih =>
    cases i with
    | zero => simp
    | succ i => exact Nat.succ_lt_succ (ih h)

/-! Claim theorems. -/

/-- C1 (counterexample): strict validation does not enforce the converse
direction.  `nodeConverseC1` has layer `storytelling` and the non-null domain
`sound`, yet `validateNode` accepts it, refuting the claim that a valid node
with `layer ≠ 'domain'` must have a null domain. -/
theorem c1_counterexample :
    (validateNode nodeConverseC1).valid = true ∧
    nodeConverseC1.layer ≠ "domain" ∧ nodeConverseC1.domain ≠ none := by
  decide

/-- C1 (amended): for every node accepted by strict validation, layer
`domain` implies a non-null domain; the converse is not enforced by
`validateNode`. -/
theorem c1_valid_domain_layer_has_domain (n : Node)
    (hv : (validateNode n).valid = true) (hl : n.layer = "domain") :
    n.domain ≠ none := by
  intro hd
  simp only [validateNode, validateRaw, hl, hd, jsFalsy] at hv
  split at hv
  · simp at hv
  · simp at hv

/-- C1 witness: the amended theorem applied to the concrete domain-layer node
`sampleDomainNode`. -/
theorem c1_witness :
    (validateNode sampleDomainNode).valid = true ∧ sampleDomainNode.domain ≠ none :=
  ⟨by decide, c1_valid_domain_layer_has_domain sampleDomainNode (by decide) rfl⟩

/-- C2 (counterexample): the claim's formula substitutes 3 only for an absent
strength, but the source treats the present strength 0 as falsy too: input 0
produces 3, while the claim's formula `min(5, max(1, 0))` produces 1. -/
theorem c2_counterexample :
    (createConnection "u" ⟨none, some "a", some "b", none, some 0⟩).strength = 3 ∧
    specStrengthClaim (some 0) = 1 ∧
    (createConnection "u" ⟨none, some "a", some "b", none, some 0⟩).strength ≠
      specStrengthClaim (some 0) := by
  decide

/-- C2 (amended): the constructed strength is `min(5, max(1, s))` with 3
substituted when the input strength is absent or 0 (falsy), hence always in
[1,5]; input −3 yields 1, input 9 yields 5, an omitted input yields 3. -/
theorem c2_strength_clamped :
    (∀ (freshId : String) (d : ConnectionData),
        1 ≤ (createConnection freshId d).strength ∧
        (createConnection freshId d).strength ≤ 5 ∧
        (createConnection freshId d).strength = min 5 (max 1 (jsOrQ d.strength 3))) ∧
    (createConnection "u" ⟨none, some "a", some "b", none, some (-3)⟩).strength = 1 ∧
    (createConnection "u" ⟨none, some "a", some "b", none, some 9⟩).strength = 5 ∧
    (createConnection "u" ⟨none, some "a", some "b", none, none⟩).strength = 3 := by
  refine ⟨fun freshId d => ⟨?_, ?_, rfl⟩, by decide, by decide, by decide⟩
  · exact le_min (by norm_num) (le_max_left 1 _)
  · exact min_le_left _ _

/-- C10: `createNode` is total and substitutes `Untitled` for an absent or
empty title, so every node a successful `addNode` appends — in particular in
explore mode, where validation is skipped and an empty title accepted — has a
non-empty title. -/
theorem c10_title_never_empty :
    (∀ (freshId : String) (d : NodeData), (createNode freshId d).title ≠ "") ∧
    (∀ (freshId : String) (d : NodeData), (d.title = none ∨ d.title = some "") →
        (createNode freshId d).title = "Untitled") ∧
    (∀ (freshId : String) (st : StoreState) (d : NodeData), st.mode = "explore" →
        Store.addNode freshId st d =
          (Store.notify (Store.save { st with nodes := st.nodes ++ [createNode freshId d] }),
           .ok (createNode freshId d))) ∧
    (∀ (freshId : String) (st : StoreState) (d : NodeData) (st' : StoreState) (n : Node),
        Store.addNode freshId st d = (st', .ok n) → n.title ≠ "" ∧ n ∈ st'.nodes) := by
  refine ⟨createNode_title_ne, ?_, ?_, ?_⟩
  · rintro freshId d (h | h) <;> simp [createNode, jsOrS, h]
  · intro freshId st d h
    simp [Store.addNode, h]
  · intro freshId st d st' n h
    by_cases hb : st.mode = "build" ∧ (validateData d).valid = false
    · rw [Store.addNode, if_pos hb] at h
      simp at h
    · rw [Store.addNode, if_neg hb] at h
      simp only [Prod.mk.injEq, Store.OpResult.ok.injEq] at h
      obtain ⟨hst, hn⟩ := h
      subst hn
      refine ⟨createNode_title_ne _ _, ?_⟩
      rw [← hst]
      simp [Store.notify, Store.save]

/-- C10 witness: explore-mode `addNode` on an empty-title input succeeds and
the created node carries the non-empty title `Untitled`. -/
theorem c10_witness :
    (Store.addNode "u" stExplore dEmptyTitle).2 = .ok (createNode "u" dEmptyTitle) ∧
    (createNode "u" dEmptyTitle).title = "Untitled" ∧
    (createNode "u" dEmptyTitle).title ≠ "" := by
  have h3 := c10_title_never_empty.2.2.1 "u" stExplore dEmptyTitle rfl
  exact ⟨by rw [h3], c10_title_never_empty.2.1 "u" dEmptyTitle (Or.inr rfl),
    c10_title_never_empty.1 "u" dEmptyTitle⟩

/-- C3: in build mode `addNode` rejects an empty or whitespace-only title with
the missing-title error and an unchanged state, and rejects a domain-layer
input with an empty domain with the missing-domain error; in explore mode the
same inputs succeed and the created node is appended. -/
theorem c3_build_rejects_explore_accepts :
    (∀ (freshId : String) (st : StoreState) (d : NodeData), st.mode = "build" →
        (d.title = none ∨ ∃ s, d.title = some s ∧ jsTrim s = "") →
        Store.addNode freshId st d = (st, .err (some "Title is required"))) ∧
    (∀ (freshId : String) (st : StoreState) (d : NodeData) (s : String), st.mode = "build" →
        d.title = some s → jsTrim s ≠ "" →
        d.layer = some "domain" → (d.domain = none ∨ d.domain = some "") →
        Store.addNode freshId st d = (st, .err (some "Domain nodes must specify which domain"))) ∧
    (∀ (freshId : String) (st : StoreState) (d : NodeData), st.mode = "explore" →
        Store.addNode freshId st d =
          (Store.notify (Store.save { st with nodes := st.nodes ++ [createNode freshId d] }),
           .ok (createNode freshId d))) := by
  refine ⟨?_, ?_, ?_⟩
  · intro freshId st d hm ht
    have hv : validateData d = ⟨false, some "Title is required"⟩ := by
      rcases ht with h | ⟨s, hs, hst⟩
      · simp [validateData, validateRaw, h]
      · simp [validateData, validateRaw, hs, hst]
    rw [Store.addNode, if_pos ⟨hm, by rw [hv]⟩, hv]
  · intro freshId st d s hm ht hts hl hd
    have hv : validateData d = ⟨false, some "Domain nodes must specify which domain"⟩ := by
      rcases hd with h | h <;>
        simp [validateData, validateRaw, ht, hts, hl, h, jsFalsy]
    rw [Store.addNode, if_pos ⟨hm, by rw [hv]⟩, hv]
  · intro freshId st d h
    simp [Store.addNode, h]

/-- C3 witness: the theorem applied to the build-mode store `stBuild` with an
empty title, with a missing domain, and to the explore-mode store with the
empty title. -/
theorem c3_witness :
    Store.addNode "u" stBuild dEmptyTitle = (stBuild, .err (some "Title is required")) ∧
    Store.addNode "u" stBuild dDomainMissing =
      (stBuild, .err (some "Domain nodes must specify which domain")) ∧
    (Store.addNode "u" stExplore dEmptyTitle).2 = .ok (createNode "u" dEmptyTitle) := by
  refine ⟨c3_build_rejects_explore_accepts.1 "u" stBuild dEmptyTitle rfl
      (Or.inr ⟨"", rfl, by decide⟩),
    c3_build_rejects_explore_accepts.2.1 "u" stBuild dDomainMissing "X" rfl rfl
      (by decide) rfl (Or.inr rfl), ?_⟩
  rw [c3_build_rejects_explore_accepts.2.2 "u" stExplore dEmptyTitle rfl]

/-- C4: `deleteNode id` keeps exactly the nodes whose identifier differs from
`id` and exactly the connections with neither endpoint equal to `id`; on the
fixture graph A,B,C with connections A→B, B→C, A→C, deleting B leaves exactly
nodes A,C and the single connection A→C. -/
theorem c4_deleteNode_exact :
    (∀ (st : StoreState) (id : String),
        (∀ n : Node, n ∈ (Store.deleteNode st id).nodes ↔ n ∈ st.nodes ∧ n.id ≠ id) ∧
        (∀ c : Connection, c ∈ (Store.deleteNode st id).connections ↔
            c ∈ st.connections ∧ c.«from» ≠ some id ∧ c.«to» ≠ some id)) ∧
    (Store.deleteNode stABC "B").nodes = [nodeA, nodeC] ∧
    (Store.deleteNode stABC "B").connections = [connAC] := by
  refine ⟨fun st id => ⟨fun n => ?_, fun c => ?_⟩, by decide, by decide⟩
  · simp [Store.deleteNode, Store.save, Store.notify, List.mem_filter]
  · simp [Store.deleteNode, Store.save, Store.notify, List.mem_filter, and_assoc]

/-- C4 witness: the characterization applied to the fixture graph — node A
survives the deletion of B, the connection A→B does not. -/
theorem c4_witness :
    nodeA ∈ (Store.deleteNode stABC "B").nodes ∧
    connAB ∉ (Store.deleteNode stABC "B").connections :=
  ⟨((c4_deleteNode_exact.1 stABC "B").1 nodeA).mpr ⟨by decide, by decide⟩,
   fun h => (((c4_deleteNode_exact.1 stABC "B").2 connAB).mp h).2.2 rfl⟩

/-- C8 (counterexample): the two state modules do not have equal observable
`addNode` behavior in every mode.  In build mode with an empty title the
observer store rejects and leaves its node collection unchanged, while the
signals variant — which never validates — appends a node. -/
theorem c8_counterexample :
    (Store.addNode "u" stBuild dEmptyTitle).1.nodes = stBuild.nodes ∧
    (Store.addNode "u" stBuild dEmptyTitle).2 = .err (some "Title is required") ∧
    (signalsAddNode "u" stBuild.nodes dEmptyTitle).1 ≠ stBuild.nodes ∧
    (signalsAddNode "u" stBuild.nodes dEmptyTitle).1 =
      stBuild.nodes ++ [createNode "u" dEmptyTitle] := by
  decide

/-- C8 (amended): in explore mode the two modules agree — the observer
store's `addNode` appends exactly the node the signals variant appends and
returns it (wrapped in the result record, where the signals variant returns
the bare node); in build mode they diverge as the counterexample shows. -/
theorem c8_explore_agreement (freshId : String) (st : StoreState) (d : NodeData)
    (h : st.mode = "explore") :
    (Store.addNode freshId st d).1.nodes = (signalsAddNode freshId st.nodes d).1 ∧
    (Store.addNode freshId st d).2 = .ok (signalsAddNode freshId st.nodes d).2 := by
  simp [Store.addNode, signalsAddNode, h, Store.notify, Store.save]

/-- C8 witness: the explore-mode agreement at the concrete empty store and
empty-title input. -/
theorem c8_witness :
    (Store.addNode "u" stExplore dEmptyTitle).1.nodes =
      (signalsAddNode "u" stExplore.nodes dEmptyTitle).1 :=
  (c8_explore_agreement "u" stExplore dEmptyTitle rfl).1

/-- C5: `updateNode` fails with `Node not found` (and an unchanged state)
when the identifier is absent; otherwise, on the first node carrying the
identifier, it shallow-merges the updates, and in build mode a validation
failure of the merged node returns the failure with the state completely
unchanged, while otherwise the merged node is committed at the same index. -/
theorem c5_updateNode_contract :
    (∀ (st : StoreState) (id : String) (u : NodeData),
        (∀ n ∈ st.nodes, n.id ≠ id) →
        Store.updateNode st id u = (st, .err (some "Node not found"))) ∧
    (∀ (st : StoreState) (id : String) (u : NodeData) (i : Nat) (node : Node),
        jsFindIndex (fun n => decide (n.id = id)) st.nodes = some i →
        st.nodes.get? i = some node →
        ((st.mode = "build" ∧ (validateNode (Store.applyUpdates node u)).valid = false →
          Store.updateNode st id u = (st, .err (validateNode (Store.applyUpdates node u)).error)) ∧
         (¬(st.mode = "build" ∧ (validateNode (Store.applyUpdates node u)).valid = false) →
          Store.updateNode st id u =
            (Store.notify (Store.save
              { st with nodes := st.nodes.set i (Store.applyUpdates node u) }),
             .ok (Store.applyUpdates node u))))) := by
  constructor
  · intro st id u h
    have hf : jsFindIndex (fun n => decide (n.id = id)) st.nodes = none :=
      jsFindIndex_eq_none fun n hn => by simpa using h n hn
    simp [Store.updateNode, hf]
  · intro st id u i node hf hg
    constructor
    · intro hb
      simp only [Store.updateNode, hf, hg]
      rw [if_pos hb]
    · intro hb
      simp only [Store.updateNode, hf, hg]
      rw [if_neg hb]

/-- C5 witness: the contract applied to the fixture store — an absent
identifier fails without mutation, and a present one commits the shallow
merge. -/
theorem c5_witness :
    Store.updateNode stABC "Z" emptyNodeData = (stABC, .err (some "Node not found")) ∧
    Store.updateNode stABC "B" uTitle =
      (Store.notify (Store.save
        { stABC with nodes := stABC.nodes.set 1 (Store.applyUpdates nodeB uTitle) }),
       .ok (Store.applyUpdates nodeB uTitle)) :=
  ⟨c5_updateNode_contract.1 stABC "Z" emptyNodeData (by decide),
   (c5_updateNode_contract.2 stABC "B" uTitle 1 nodeB (by decide) (by decide)).2 (by decide)⟩

/-- C6: `updateNodeNotes` on a present identifier rewrites only the
personal-note field of the found node — every other field, every other node,
the connections and the subscriber call count are unchanged — and on an
absent identifier changes nothing; a successful `updateNode`, by contrast,
increments the subscriber call count. -/
theorem c6_updateNodeNotes_silent :
    (∀ (st : StoreState) (id notes : String) (i : Nat) (node : Node),
        jsFindIndex (fun n => decide (n.id = id)) st.nodes = some i →
        st.nodes.get? i = some node →
        (Store.updateNodeNotes st id notes).nodes.get? i =
          some { node with personalNote := notes } ∧
        (∀ j : Nat, j ≠ i →
          (Store.updateNodeNotes st id notes).nodes.get? j = st.nodes.get? j) ∧
        (Store.updateNodeNotes st id notes).connections = st.connections ∧
        (Store.updateNodeNotes st id notes).notifyCount = st.notifyCount) ∧
    (∀ (st : StoreState) (id notes : String),
        (∀ n ∈ st.nodes, n.id ≠ id) → Store.updateNodeNotes st id notes = st) ∧
    (∀ (st : StoreState) (id : String) (u : NodeData) (st' : StoreState) (n : Node),
        Store.updateNode st id u = (st', .ok n) →
        st'.notifyCount = st.notifyCount + 1) := by
  refine ⟨?_, ?_, ?_⟩
  · intro st id notes i node hf hg
    have hlt : i < st.nodes.length := list_get?_some_lt hg
    have hst : Store.updateNodeNotes st id notes =
        Store.save { st with nodes := st.nodes.set i { node with personalNote := notes } } := by
      simp only [Store.updateNodeNotes, hf, hg]
    rw [hst]
    refine ⟨list_get?_set_self _ hlt, fun j hj => list_get?_set_ne _ hj, rfl, rfl⟩
  · intro st id notes h
    have hf : jsFindIndex (fun n => decide (n.id = id)) st.nodes = none :=
      jsFindIndex_eq_none fun n hn => by simpa using h n hn
    rw [Store.updateNodeNotes, hf]
  · intro st id u st' n h
    rcases hf : jsFindIndex (fun m => decide (m.id = id)) st.nodes with _ | i
    · simp only [Store.updateNode, hf] at h
      simp at h
    · rcases hg : st.nodes.get? i with _ | node
      · simp only [Store.updateNode, hf, hg] at h
        simp at h
      · simp only [Store.updateNode, hf, hg] at h
        by_cases hb : st.mode = "build" ∧
            (validateNode (Store.applyUpdates node u)).valid = false
        · rw [if_pos hb] at h
          simp at h
        · rw [if_neg hb] at h
          have hst : Store.notify (Store.save
              { st with nodes := st.nodes.set i (Store.applyUpdates node u) }) = st' :=
            congrArg Prod.fst h
          rw [← hst]
          rfl

/-- C6 witness: on the fixture store, a notes-only update of node B keeps the
subscriber call count at 0 while `updateNode` on B raises it to 1. -/
theorem c6_witness :
    (Store.updateNodeNotes stABC "B" "remember this").notifyCount = stABC.notifyCount ∧
    (Store.updateNodeNotes stABC "B" "remember this").nodes.get? 1 =
      some { nodeB with personalNote := "remember this" } ∧
    Store.updateNodeNotes stABC "Z" "remember this" = stABC ∧
    (Store.updateNode stABC "B" uTitle).1.notifyCount = stABC.notifyCount + 1 := by
  have h1 := c6_updateNodeNotes_silent.1 stABC "B" "remember this" 1 nodeB
    (by decide) (by decide)
  refine ⟨h1.2.2.2, h1.1, c6_updateNodeNotes_silent.2.1 stABC "Z" "remember this" (by decide), ?_⟩
  exact c6_updateNodeNotes_silent.2.2 stABC "B" uTitle
    (Store.updateNode stABC "B" uTitle).1 (Store.applyUpdates nodeB uTitle) (by decide)

/-- C7 (counterexample): `getFilteredNodes` does not apply the intent
criterion.  With only the intent filter set, the source returns every node,
while the spec-worded filter (all three criteria AND-combined) returns none. -/
theorem c7_counterexample :
    Store.getFilteredNodes stIntent = [nodeA] ∧
    getFilteredNodesSpec stIntent = [] ∧
    Store.getFilteredNodes stIntent ≠ getFilteredNodesSpec stIntent := by
  decide

/-- C7 (amended): `getFilteredNodes` returns exactly the nodes matching the
layer and domain criteria, AND-combined with an empty criterion matching
every node; the intent criterion is ignored — changing it never changes the
result. -/
theorem c7_filters_layer_domain_only :
    (∀ st : StoreState,
        Store.getFilteredNodes st = st.nodes.filter fun n =>
          (decide (st.filters.layer = "") || decide (n.layer = st.filters.layer)) &&
          (decide (st.filters.domain = "") || decide (n.domain = some st.filters.domain))) ∧
    (∀ (st : StoreState) (intentVal : String),
        Store.getFilteredNodes { st with filters := { st.filters with intent := intentVal } } =
          Store.getFilteredNodes st) := by
  constructor
  · intro st
    rw [Store.getFilteredNodes]
    refine congrArg (fun p => List.filter p st.nodes) (funext fun n => ?_)
    by_cases h1 : st.filters.layer = "" <;>
      by_cases h2 : n.layer = st.filters.layer <;>
      by_cases h3 : st.filters.domain = "" <;>
      by_cases h4 : n.domain = some st.filters.domain <;>
      simp [h1, h2, h3, h4]
  · intro st intentVal
    rfl

/-- C9 (counterexample): the save/load round-trip is not the identity for
every store state.  With an empty node collection (and a non-empty connection
collection), reloading the just-saved payload discards the connections in
favor of the seed defaults. -/
theorem c9_counterexample :
    (Store.load (Store.save stEmptyNodes)).connections ≠ stEmptyNodes.connections ∧
    (Store.load (Store.save stEmptyNodes)).connections = DEFAULT_CONNECTIONS ∧
    (Store.load (Store.save stEmptyNodes)).nodes = getAllInitialNodes := by
  refine ⟨by decide, rfl, rfl⟩

/-- C9 (amended): for every state whose node collection is non-empty, saving
and reloading reproduces the node and connection collections exactly (order
and all field values preserved); with an empty node collection `load` falls
back to the seed taxonomy instead. -/
theorem c9_roundtrip_nonempty (st : StoreState) (h : st.nodes ≠ []) :
    (Store.load (Store.save st)).nodes = st.nodes ∧
    (Store.load (Store.save st)).connections = st.connections := by
  simp [Store.load, Store.save, Store.loadPayload, h]

/-- C9 witness: the round-trip at the concrete three-node fixture store. -/
theorem c9_witness :
    stABC.nodes ≠ [] ∧
    (Store.load (Store.save stABC)).nodes = stABC.nodes ∧
    (Store.load (Store.save stABC)).connections = stABC.connections :=
  ⟨by decide, (c9_roundtrip_nonempty stABC (by decide)).1,
   (c9_roundtrip_nonempty stABC (by decide)).2⟩

end Knowledge
